import Mathlib

/-!
# Verification of Poco::Data::Column (src/Data/include/Poco/Data/Column.h)

Shallow embedding of the three `Column` variants:
  * the generic variant `Column<T, C>` (random-access container, modelled as a list),
  * the `Column<bool, std::vector<bool>>` specialization with its mutable shadow deque,
  * the `Column<T, std::list<T>>` specialization with bidirectional traversal.

A `Column` holds a `MetaColumn` value and a `Poco::SharedPtr` to its backing
container.  Shared ownership is modelled with an explicit heap: addresses are
`Nat` and a heap maps every address to the container stored there.  Copying a
column copies the address, so two copies share one backing store, exactly as
`SharedPtr` copies do in the source.  Methods are embedded in explicit
state-passing style: each `value` returns its result together with the column
and heap as the method leaves them (the generic and list variants perform no
writes; the boolean variant updates its `mutable` shadow deque).

C++ exceptions are modelled with `Except`: `CxxError.outOfRange` stands for the
container's native `std::out_of_range`, `CxxError.rangeException` for
`Poco::RangeException`.  `std::size_t` arithmetic that can wrap (the
`_pData->size() - row` subtraction in the list variant) is done modulo `2^64`.
-/

namespace PocoData

/-- Width of `std::size_t` on the modelled platform. -/
def SIZE_T_MOD : Nat := 2 ^ 64

/-- The two C++ exception kinds reaching this code: the backing container's
native `std::out_of_range` and Poco's `RangeException`. -/
inductive CxxError where
  | outOfRange (msg : String)
  | rangeException (msg : String)
deriving DecidableEq, Repr

/-- The implementation-defined `what()` message of a `std::out_of_range`
thrown by `at()`; its exact text is not specified by the source. -/
def outOfRangeMsg : String := "out_of_range at()"

/-- `MetaColumn::ColumnDataType` tag (from MetaColumn.h, an external
collaborator; the tag values are opaque to Column.h). -/
inductive ColumnDataType where
  | fdtBool
  | fdtInt
  | fdtDouble
  | fdtString
  | fdtUnknown
deriving DecidableEq, Repr

/-- Modelled from the spec: `MetaColumn` (src/Data/include/Poco/Data/MetaColumn.h
is not under src/).  An immutable record with name, length, precision,
position and a data-type tag; Column.h only copies it and forwards accessors. -/
structure MetaColumn where
  name : String
  length : Nat
  precision : Nat
  position : Nat
  type : ColumnDataType
deriving DecidableEq, Repr

/-- A heap of backing containers: each address holds one container of `T`
(vector, deque and list are all modelled as Lean lists).  `SharedPtr` copies
share the address, hence the store. -/
def Heap (T : Type) : Type := Nat → List T

/-- Write the container at address `a`; models in-place mutation of the
shared backing store. -/
def heapUpdate {T : Type} (h : Heap T) (a : Nat) (v : List T) : Heap T :=
  fun b => if b = a then v else h b

/-- `container.at(i)`: checked element access; returns the element or throws
`std::out_of_range`. -/
def containerAt {T : Type} (l : List T) (i : Nat) : Except CxxError T :=
  if h : i < l.length then Except.ok (l.get ⟨i, h⟩)
  else Except.error (CxxError.outOfRange outOfRangeMsg)

/-! ## Generic variant `Column<T, C>` (lines 55-185) -/

/-- `Column<T, C>`: a `MetaColumn` copy and a `SharedPtr<Container>`,
modelled as an address into a `Heap T`. -/
structure Column (T : Type) where
  metaColumn : MetaColumn
  pData : Nat
deriving DecidableEq, Repr

namespace Column

/-- `Column(const MetaColumn&, C*)` (line 69): stores the metadata and the
pointer.  The `poco_check_ptr` null check has no counterpart here because the
address model has no null. -/
def mkColumn {T : Type} (m : MetaColumn) (a : Nat) : Column T :=
  { metaColumn := m, pData := a }

/-- Copy constructor (line 75): copies the metadata and shares the pointer. -/
def copy {T : Type} (c : Column T) : Column T :=
  { metaColumn := c.metaColumn, pData := c.pData }

/-- `swap` (line 93): exchanges metadata and data pointer of the two columns;
returns both post-states. -/
def swap {T : Type} (a b : Column T) : Column T × Column T :=
  ({ metaColumn := b.metaColumn, pData := b.pData },
   { metaColumn := a.metaColumn, pData := a.pData })

/-- `operator=` (line 85): copy-and-swap; the result is the post-state of the
assigned-to column. -/
def assign {T : Type} (this other : Column T) : Column T :=
  (Column.swap this (Column.copy other)).fst

/-- Mutation of the backing store through the `data()` accessor (line 100):
`data()` returns a mutable reference to `*_pData`, so a caller can replace the
stored contents; visible through every column sharing the address. -/
def writeData {T : Type} (h : Heap T) (c : Column T) (v : List T) : Heap T :=
  heapUpdate h c.pData v

/-- `value(row)` (lines 106-117): `_pData->at(row)`, catching
`std::out_of_range` and rethrowing it as `RangeException(ex.what())`.
The method writes nothing, so column and heap are returned unchanged. -/
def value {T : Type} (h : Heap T) (c : Column T) (row : Nat) :
    Except CxxError T × Column T × Heap T :=
  (match containerAt (h c.pData) row with
   | Except.ok x => Except.ok x
   | Except.error (CxxError.outOfRange m) =>
       Except.error (CxxError.rangeException m)
   | Except.error e => Except.error e,
   c, h)

/-- `operator[](row)` (lines 119-123): returns `value(row)`. -/
def index {T : Type} (h : Heap T) (c : Column T) (row : Nat) :
    Except CxxError T × Column T × Heap T :=
  Column.value h c row

/-- `rowCount()` (lines 125-129): `_pData->size()`. -/
def rowCount {T : Type} (h : Heap T) (c : Column T) : Nat :=
  (h c.pData).length

/-- `reset()` (lines 131-135): `C().swap(*_pData)` replaces the shared
backing container's contents with a fresh empty container, in place. -/
def reset {T : Type} (h : Heap T) (c : Column T) : Heap T :=
  heapUpdate h c.pData []

end Column

/-! ## `Column<bool, std::vector<bool>>` specialization (lines 188-336) -/

/-- `std::deque<bool>::resize(n)`: truncates to `n` elements or appends
value-constructed (`false`) elements up to length `n`. -/
def dequeResize (l : List Bool) (n : Nat) : List Bool :=
  if n ≤ l.length then l.take n
  else l ++ List.replicate (n - l.length) false

/-- Lines 255-256 of `value`: `if (_deque.size() < _pData->size())
_deque.resize(_pData->size());` — grow the shadow deque to the backing
vector's size when it is shorter. -/
def syncDeque (dq v : List Bool) : List Bool :=
  if dq.length < v.length then dequeResize dq v.length else dq

/-- `Column<bool, std::vector<bool>>`: metadata, a shared pointer to the
packed vector, and the per-column `mutable std::deque<bool> _deque` shadow
(lines 333-335; the deque is a plain member, not shared). -/
structure ColumnBool where
  metaColumn : MetaColumn
  pData : Nat
  deque : List Bool
deriving DecidableEq, Repr

namespace ColumnBool

/-- `Column(const MetaColumn&, Container*)` (lines 208-215): stores metadata
and pointer, then `_deque.assign(_pData->begin(), _pData->end())`. -/
def mkColumn (h : Heap Bool) (m : MetaColumn) (a : Nat) : ColumnBool :=
  { metaColumn := m, pData := a, deque := h a }

/-- Copy constructor (lines 217-223): shares the pointer and re-assigns the
shadow deque from the backing vector's current contents. -/
def copy (h : Heap Bool) (c : ColumnBool) : ColumnBool :=
  { metaColumn := c.metaColumn, pData := c.pData, deque := h c.pData }

/-- `swap` (lines 238-244): exchanges metadata, pointer and deque. -/
def swap (a b : ColumnBool) : ColumnBool × ColumnBool :=
  ({ metaColumn := b.metaColumn, pData := b.pData, deque := b.deque },
   { metaColumn := a.metaColumn, pData := a.pData, deque := a.deque })

/-- `operator=` (lines 230-236): copy-and-swap. -/
def assign (h : Heap Bool) (this other : ColumnBool) : ColumnBool :=
  (ColumnBool.swap this (ColumnBool.copy h other)).fst

/-- Mutation of the backing vector through `data()` (lines 246-250). -/
def writeData (h : Heap Bool) (c : ColumnBool) (v : List Bool) : Heap Bool :=
  heapUpdate h c.pData v

/-- `value(row)` (lines 252-266): first grow the shadow deque to the backing
vector's size if it is shorter; then `return _deque.at(row) = _pData->at(row)`
inside a try that rewraps `std::out_of_range` as `RangeException`.  The
assignment evaluates `_pData->at(row)` and the checked reference
`_deque.at(row)`; on success the fetched bit is stored into the deque slot and
returned.  If either check throws, the deque keeps its (possibly grown)
contents and the error is rewrapped. -/
def value (h : Heap Bool) (c : ColumnBool) (row : Nat) :
    Except CxxError Bool × ColumnBool × Heap Bool :=
  let v := h c.pData
  let d := syncDeque c.deque v
  match containerAt v row with
  | Except.ok b =>
      match containerAt d row with
      | Except.ok _ =>
          (Except.ok b, { c with deque := d.set row b }, h)
      | Except.error (CxxError.outOfRange m) =>
          (Except.error (CxxError.rangeException m), { c with deque := d }, h)
      | Except.error e => (Except.error e, { c with deque := d }, h)
  | Except.error (CxxError.outOfRange m) =>
      (Except.error (CxxError.rangeException m), { c with deque := d }, h)
  | Except.error e => (Except.error e, { c with deque := d }, h)

/-- `operator[](row)` (lines 268-272): returns `value(row)`. -/
def index (h : Heap Bool) (c : ColumnBool) (row : Nat) :
    Except CxxError Bool × ColumnBool × Heap Bool :=
  ColumnBool.value h c row

/-- `rowCount()` (lines 274-278): `_pData->size()`. -/
def rowCount (h : Heap Bool) (c : ColumnBool) : Nat :=
  (h c.pData).length

/-- `reset()` (lines 280-285): empties the shared vector in place and clears
this column's shadow deque. -/
def reset (h : Heap Bool) (c : ColumnBool) : ColumnBool × Heap Bool :=
  ({ c with deque := [] }, heapUpdate h c.pData [])

/-- A sequence of `value` calls applied in order, threading the column and
heap state; models an arbitrary access order against one column. -/
def runAccesses (h : Heap Bool) (c : ColumnBool) : List Nat → ColumnBool × Heap Bool
  | [] => (c, h)
  | r :: rs =>
      let o := ColumnBool.value h c r
      ColumnBool.runAccesses o.snd.snd o.snd.fst rs

end ColumnBool

/-! ## `Column<T, std::list<T>>` specialization (lines 339-482) -/

/-- One traversal loop of the list variant (lines 401-402 and 409-410): walk
the elements with a counter starting at `i`; return the element where the
counter equals `row`, or nothing when the iterator reaches the end. -/
def listFindFrom {T : Type} (l : List T) (i : Nat) (row : Nat) : Option T :=
  match l with
  | [] => none
  | x :: xs => if i = row then some x else listFindFrom xs (i + 1) row

/-- The lookup performed by the list variant's `value` (lines 396-411): the
branch on `row <= size / 2`, the forward walk counting from 0, or the
backward walk over the reversed order counting from 1 after the `std::size_t`
subtraction `row = _pData->size() - row` (wrapping modulo `2^64`).  `none`
means the traversal taken exhausted without a match. -/
def listLookup {T : Type} (l : List T) (row : Nat) : Option T :=
  if row ≤ l.length / 2 then
    listFindFrom l 0 row
  else
    listFindFrom l.reverse 1 ((l.length + SIZE_T_MOD - row) % SIZE_T_MOD)

/-- `Column<T, std::list<T>>`: metadata and a shared pointer to the list. -/
structure ColumnList (T : Type) where
  metaColumn : MetaColumn
  pData : Nat
deriving DecidableEq, Repr

namespace ColumnList

/-- Constructor (lines 349-353). -/
def mkColumn {T : Type} (m : MetaColumn) (a : Nat) : ColumnList T :=
  { metaColumn := m, pData := a }

/-- Copy constructor (lines 355-358). -/
def copy {T : Type} (c : ColumnList T) : ColumnList T :=
  { metaColumn := c.metaColumn, pData := c.pData }

/-- `swap` (lines 373-378). -/
def swap {T : Type} (a b : ColumnList T) : ColumnList T × ColumnList T :=
  ({ metaColumn := b.metaColumn, pData := b.pData },
   { metaColumn := a.metaColumn, pData := a.pData })

/-- `operator=` (lines 365-371): copy-and-swap. -/
def assign {T : Type} (this other : ColumnList T) : ColumnList T :=
  (ColumnList.swap this (ColumnList.copy other)).fst

/-- Mutation of the backing list through `data()` (lines 380-384). -/
def writeData {T : Type} (h : Heap T) (c : ColumnList T) (v : List T) : Heap T :=
  heapUpdate h c.pData v

/-- `value(row)` (lines 386-414): if `row <= size / 2`, walk forward from the
head with a counter starting at 0; otherwise set `row = size - row` (a
`std::size_t` subtraction, which wraps modulo `2^64` when `row > size`) and
walk backward from the tail with a counter starting at 1.  If the traversal
taken exhausts without a match, fall through to
`throw RangeException("Invalid row number.")`.  The method writes nothing. -/
def value {T : Type} (h : Heap T) (c : ColumnList T) (row : Nat) :
    Except CxxError T × ColumnList T × Heap T :=
  (match listLookup (h c.pData) row with
   | some x => Except.ok x
   | none => Except.error (CxxError.rangeException "Invalid row number."),
   c, h)

/-- `operator[](row)` (lines 416-420): returns `value(row)`. -/
def index {T : Type} (h : Heap T) (c : ColumnList T) (row : Nat) :
    Except CxxError T × ColumnList T × Heap T :=
  ColumnList.value h c row

/-- `rowCount()` (lines 422-426): `_pData->size()`. -/
def rowCount {T : Type} (h : Heap T) (c : ColumnList T) : Nat :=
  (h c.pData).length

/-- `reset()` (lines 428-432): `_pData->clear()` empties the shared list. -/
def reset {T : Type} (h : Heap T) (c : ColumnList T) : Heap T :=
  heapUpdate h c.pData []

end ColumnList

section Sanity

example : (Column.value (T := Nat) (fun _ => [10, 20, 30])
    (Column.mkColumn ⟨"age", 0, 0, 2, ColumnDataType.fdtInt⟩ 0) 1).fst
    = Except.ok 20 := by rfl

example : (Column.value (T := Nat) (fun _ => [10, 20, 30])
    (Column.mkColumn ⟨"age", 0, 0, 2, ColumnDataType.fdtInt⟩ 0) 3).fst
    = Except.error (CxxError.rangeException outOfRangeMsg) := by rfl

example : Column.rowCount (T := Nat)
    (Column.reset (fun _ => [10, 20, 30])
      (Column.mkColumn ⟨"age", 0, 0, 2, ColumnDataType.fdtInt⟩ 0))
    (Column.mkColumn ⟨"age", 0, 0, 2, ColumnDataType.fdtInt⟩ 0) = 0 := by decide

example : (ColumnBool.value (fun _ => [true, false, true])
    (ColumnBool.mkColumn (fun _ => [true, false, true])
      ⟨"b", 0, 0, 0, ColumnDataType.fdtBool⟩ 0) 2).fst
    = Except.ok true := by rfl

example : (ColumnBool.value (fun _ => [true, false, true])
    (ColumnBool.mkColumn (fun _ => [true, false, true])
      ⟨"b", 0, 0, 0, ColumnDataType.fdtBool⟩ 0) 3).fst
    = Except.error (CxxError.rangeException outOfRangeMsg) := by rfl

example : (ColumnList.value (T := Nat) (fun _ => [10, 20, 30, 40, 50])
    (ColumnList.mkColumn ⟨"n", 0, 0, 0, ColumnDataType.fdtInt⟩ 0) 1).fst
    = Except.ok 20 := by rfl

example : (ColumnList.value (T := Nat) (fun _ => [10, 20, 30, 40, 50])
    (ColumnList.mkColumn ⟨"n", 0, 0, 0, ColumnDataType.fdtInt⟩ 0) 3).fst
    = Except.ok 40 := by rfl

example : (ColumnList.value (T := Nat) (fun _ => [10, 20, 30, 40, 50])
    (ColumnList.mkColumn ⟨"n", 0, 0, 0, ColumnDataType.fdtInt⟩ 0) 4).fst
    = Except.ok 50 := by rfl

example : (ColumnList.value (T := Nat) (fun _ => [10, 20, 30, 40, 50])
    (ColumnList.mkColumn ⟨"n", 0, 0, 0, ColumnDataType.fdtInt⟩ 0) 5).fst
    = Except.error (CxxError.rangeException "Invalid row number.") := by rfl

end Sanity

/-! ## Helper lemmas -/

theorem heapUpdate_same {T : Type} (h : Heap T) (a : Nat) (v : List T) :
    heapUpdate h a v a = v := by
  simp [heapUpdate]

theorem containerAt_lt {T : Type} (l : List T) (i : Nat) (hi : i < l.length) :
    containerAt l i = Except.ok (l.get ⟨i, hi⟩) := by
  simp [containerAt, hi]

theorem containerAt_ge {T : Type} (l : List T) (i : Nat) (hi : l.length ≤ i) :
    containerAt l i = Except.error (CxxError.outOfRange outOfRangeMsg) := by
  simp [containerAt, Nat.not_lt.mpr hi]

theorem dequeResize_length (l : List Bool) (n : Nat) :
    (dequeResize l n).length = n := by
  unfold dequeResize
  split
  · simp; omega
  · simp; omega

theorem syncDeque_length (dq v : List Bool) :
    v.length ≤ (syncDeque dq v).length := by
  unfold syncDeque
  split
  · simp [dequeResize_length]
  · omega

theorem syncDeque_eq_append (dq v : List Bool) :
    ∃ ext, syncDeque dq v = dq ++ ext := by
  unfold syncDeque dequeResize
  by_cases h1 : dq.length < v.length
  · refine ⟨List.replicate (v.length - dq.length) false, ?_⟩
    rw [if_pos h1, if_neg (by omega)]
  · exact ⟨[], by rw [if_neg h1, List.append_nil]⟩

theorem listFindFrom_eq {T : Type} :
    ∀ (l : List T) (s row : Nat), s ≤ row →
      listFindFrom l s row = l.get? (row - s)
  | [], s, row, _ => by simp [listFindFrom]
  | x :: xs, s, row, hs => by
    unfold listFindFrom
    by_cases he : s = row
    · subst he
      simp
    · have hs2 : s + 1 ≤ row := by omega
      rw [if_neg he, listFindFrom_eq xs (s + 1) row hs2]
      have hk : row - s = (row - (s + 1)) + 1 := by omega
      rw [hk]
      rfl

theorem listFindFrom_lt {T : Type} :
    ∀ (l : List T) (s row : Nat), row < s → listFindFrom l s row = none
  | [], _, _, _ => rfl
  | _ :: xs, s, row, h => by
    unfold listFindFrom
    rw [if_neg (by omega)]
    exact listFindFrom_lt xs (s + 1) row (by omega)

theorem listLookup_lt {T : Type} (l : List T) (row : Nat)
    (hlen : l.length < SIZE_T_MOD) (hr : row < l.length) :
    listLookup l row = some (l.get ⟨row, hr⟩) := by
  unfold listLookup
  by_cases hb : row ≤ l.length / 2
  · rw [if_pos hb, listFindFrom_eq l 0 row (Nat.zero_le _), Nat.sub_zero]
    exact List.get?_eq_get hr
  · rw [if_neg hb]
    have hrow1 : 1 ≤ row := by omega
    have h1 : l.length + SIZE_T_MOD - row = SIZE_T_MOD + (l.length - row) := by
      omega
    have h2 : l.length - row < SIZE_T_MOD := by omega
    rw [h1, Nat.add_mod_left, Nat.mod_eq_of_lt h2]
    have hs : 1 ≤ l.length - row := by omega
    rw [listFindFrom_eq l.reverse 1 (l.length - row) hs]
    have h3 : l.length - row - 1 < l.reverse.length := by
      simp
      omega
    rw [List.get?_eq_get h3, List.get_reverse' l _ (by simp; omega)]
    have h4 : l.length - 1 - (l.length - row - 1) = row := by omega
    simp only [h4]

theorem listLookup_ge {T : Type} (l : List T) (row : Nat)
    (hrow : row < SIZE_T_MOD) (hr : l.length ≤ row) :
    listLookup l row = none := by
  unfold listLookup
  by_cases hb : row ≤ l.length / 2
  · have hl0 : l.length = 0 := by omega
    have hr0 : row = 0 := by omega
    rw [if_pos hb, listFindFrom_eq l 0 row (Nat.zero_le _)]
    apply List.get?_eq_none.mpr
    omega
  · rw [if_neg hb]
    by_cases he : row = l.length
    · subst he
      have : l.length + SIZE_T_MOD - l.length = SIZE_T_MOD := by omega
      rw [this, Nat.mod_self]
      exact listFindFrom_lt l.reverse 1 0 (by omega)
    · have hlt : l.length < row := by omega
      have h1 : l.length + SIZE_T_MOD - row = SIZE_T_MOD - (row - l.length) := by
        omega
      have h2 : SIZE_T_MOD - (row - l.length) < SIZE_T_MOD := by
        have : 0 < SIZE_T_MOD := by omega
        omega
      rw [h1, Nat.mod_eq_of_lt h2]
      have hs : 1 ≤ SIZE_T_MOD - (row - l.length) := by omega
      rw [listFindFrom_eq l.reverse 1 _ hs]
      apply List.get?_eq_none.mpr
      simp
      omega

theorem Column.value_in_range_generic {T : Type} (h : Heap T) (c : Column T) (row : Nat)
    (hr : row < (h c.pData).length) :
    (Column.value h c row).fst = Except.ok ((h c.pData).get ⟨row, hr⟩) := by
  unfold Column.value
  rw [containerAt_lt _ _ hr]

theorem Column.value_out_of_range_generic {T : Type} (h : Heap T) (c : Column T) (row : Nat)
    (hr : (h c.pData).length ≤ row) :
    (Column.value h c row).fst
      = Except.error (CxxError.rangeException outOfRangeMsg) := by
  unfold Column.value
  rw [containerAt_ge _ _ hr]

theorem Column.value_keeps_state_generic {T : Type} (h : Heap T) (c : Column T) (row : Nat) :
    (Column.value h c row).snd = (c, h) := rfl

theorem ColumnBool.value_in_range_bool (h : Heap Bool) (c : ColumnBool) (row : Nat)
    (hr : row < (h c.pData).length) :
    (ColumnBool.value h c row).fst = Except.ok ((h c.pData).get ⟨row, hr⟩) := by
  have hd : row < (syncDeque c.deque (h c.pData)).length :=
    Nat.lt_of_lt_of_le hr (syncDeque_length _ _)
  unfold ColumnBool.value
  simp only [containerAt_lt _ _ hr, containerAt_lt _ _ hd]

theorem ColumnBool.value_out_of_range_bool (h : Heap Bool) (c : ColumnBool) (row : Nat)
    (hr : (h c.pData).length ≤ row) :
    (ColumnBool.value h c row).fst
      = Except.error (CxxError.rangeException outOfRangeMsg) := by
  unfold ColumnBool.value
  simp only [containerAt_ge _ _ hr]

theorem ColumnBool.value_heap (h : Heap Bool) (c : ColumnBool) (row : Nat) :
    (ColumnBool.value h c row).snd.snd = h := by
  unfold ColumnBool.value
  cases h1 : containerAt (h c.pData) row with
  | ok b =>
      cases h2 : containerAt (syncDeque c.deque (h c.pData)) row with
      | ok b2 => simp [h1, h2]
      | error e => cases e <;> simp [h1, h2]
  | error e => cases e <;> simp [h1]

theorem ColumnBool.value_pData (h : Heap Bool) (c : ColumnBool) (row : Nat) :
    (ColumnBool.value h c row).snd.fst.pData = c.pData := by
  unfold ColumnBool.value
  cases h1 : containerAt (h c.pData) row with
  | ok b =>
      cases h2 : containerAt (syncDeque c.deque (h c.pData)) row with
      | ok b2 => simp [h1, h2]
      | error e => cases e <;> simp [h1, h2]
  | error e => cases e <;> simp [h1]

theorem ColumnBool.value_meta (h : Heap Bool) (c : ColumnBool) (row : Nat) :
    (ColumnBool.value h c row).snd.fst.metaColumn = c.metaColumn := by
  unfold ColumnBool.value
  cases h1 : containerAt (h c.pData) row with
  | ok b =>
      cases h2 : containerAt (syncDeque c.deque (h c.pData)) row with
      | ok b2 => simp [h1, h2]
      | error e => cases e <;> simp [h1, h2]
  | error e => cases e <;> simp [h1]

theorem ColumnBool.value_deque_len (h : Heap Bool) (c : ColumnBool) (row : Nat) :
    (h c.pData).length ≤ (ColumnBool.value h c row).snd.fst.deque.length := by
  have hs := syncDeque_length c.deque (h c.pData)
  unfold ColumnBool.value
  cases h1 : containerAt (h c.pData) row with
  | ok b =>
      cases h2 : containerAt (syncDeque c.deque (h c.pData)) row with
      | ok b2 => simpa [h1, h2] using hs
      | error e => cases e <;> simpa [h1, h2] using hs
  | error e => cases e <;> simpa [h1] using hs

theorem ColumnBool.value_deque_ge (h : Heap Bool) (c : ColumnBool) (row : Nat)
    (hr : (h c.pData).length ≤ row) :
    (ColumnBool.value h c row).snd.fst.deque
      = syncDeque c.deque (h c.pData) := by
  unfold ColumnBool.value
  simp only [containerAt_ge _ _ hr]

theorem ColumnList.value_in_range_list {T : Type} (h : Heap T) (c : ColumnList T)
    (row : Nat) (hlen : (h c.pData).length < SIZE_T_MOD)
    (hr : row < (h c.pData).length) :
    (ColumnList.value h c row).fst
      = Except.ok ((h c.pData).get ⟨row, hr⟩) := by
  unfold ColumnList.value
  rw [listLookup_lt _ _ hlen hr]

theorem ColumnList.value_out_of_range_list {T : Type} (h : Heap T) (c : ColumnList T)
    (row : Nat) (hrow : row < SIZE_T_MOD) (hr : (h c.pData).length ≤ row) :
    (ColumnList.value h c row).fst
      = Except.error (CxxError.rangeException "Invalid row number.") := by
  unfold ColumnList.value
  rw [listLookup_ge _ _ hrow hr]

theorem ColumnList.value_keeps_state_list {T : Type} (h : Heap T) (c : ColumnList T)
    (row : Nat) : (ColumnList.value h c row).snd = (c, h) := rfl

theorem list_get_congr {T : Type} {l1 l2 : List T} (e : l1 = l2) (i : Nat)
    (h1 : i < l1.length) (h2 : i < l2.length) :
    l1.get ⟨i, h1⟩ = l2.get ⟨i, h2⟩ := by
  subst e
  rfl

/-- A sample metadata record used in concrete checks. -/
def mcAge : MetaColumn := ⟨"age", 0, 0, 2, ColumnDataType.fdtInt⟩

/-! ## Claims -/

/-- C1: For every Column (generic, boolean-packed, or list-backed) and every
row in `[0, rowCount())`, `value(row)` returns exactly the element the backing
store holds at logical position `row`; given the same logical content, all
three variants return the same value for the same row.  (The list variant's
hypothesis that the backing size fits in `std::size_t` is inherent to the
source, whose sizes are `std::size_t` values.) -/
theorem C1_value_returns_backing_element {T : Type}
    (hg : Heap T) (cg : Column T) (rowg : Nat)
    (hgr : rowg < (hg cg.pData).length)
    (hb : Heap Bool) (cb : ColumnBool) (rowb : Nat)
    (hbr : rowb < (hb cb.pData).length)
    (hl : Heap T) (cl : ColumnList T) (rowl : Nat)
    (hllen : (hl cl.pData).length < SIZE_T_MOD)
    (hlr : rowl < (hl cl.pData).length) :
    (Column.value hg cg rowg).fst = Except.ok ((hg cg.pData).get ⟨rowg, hgr⟩)
    ∧ (ColumnBool.value hb cb rowb).fst
        = Except.ok ((hb cb.pData).get ⟨rowb, hbr⟩)
    ∧ (ColumnList.value hl cl rowl).fst
        = Except.ok ((hl cl.pData).get ⟨rowl, hlr⟩)
    ∧ (∀ (h2 : Heap Bool) (cg2 : Column Bool) (cb2 : ColumnBool)
         (cl2 : ColumnList Bool) (l : List Bool) (row : Nat),
         h2 cg2.pData = l → h2 cb2.pData = l → h2 cl2.pData = l →
         row < l.length → l.length < SIZE_T_MOD →
         (Column.value h2 cg2 row).fst = (ColumnBool.value h2 cb2 row).fst
         ∧ (Column.value h2 cg2 row).fst = (ColumnList.value h2 cl2 row).fst) := by
  refine ⟨Column.value_in_range_generic hg cg rowg hgr, ColumnBool.value_in_range_bool hb cb rowb hbr,
    ColumnList.value_in_range_list hl cl rowl hllen hlr, ?_⟩
  intro h2 cg2 cb2 cl2 l row e1 e2 e3 hrow hlen2
  have hr1 : row < (h2 cg2.pData).length := by rw [e1]; exact hrow
  have hr2 : row < (h2 cb2.pData).length := by rw [e2]; exact hrow
  have hr3 : row < (h2 cl2.pData).length := by rw [e3]; exact hrow
  have hlen3 : (h2 cl2.pData).length < SIZE_T_MOD := by rw [e3]; exact hlen2
  constructor
  · rw [Column.value_in_range_generic h2 cg2 row hr1, ColumnBool.value_in_range_bool h2 cb2 row hr2]
    exact congrArg Except.ok (list_get_congr (e1.trans e2.symm) row hr1 hr2)
  · rw [Column.value_in_range_generic h2 cg2 row hr1, ColumnList.value_in_range_list h2 cl2 row hlen3 hr3]
    exact congrArg Except.ok (list_get_congr (e1.trans e3.symm) row hr1 hr3)

/-- Witness for C1: concrete columns over `[10, 20, 30]`, `[true, false, true]`
and `[7, 8, 9]`, reading rows 1, 2 and 2, plus the agreement of the three
variants over the shared content `[true, false, true]` at row 1. -/
theorem C1_witness :
    (Column.value (T := Nat) (fun _ => [10, 20, 30])
      (Column.mkColumn mcAge 0) 1).fst = Except.ok 20
    ∧ (ColumnBool.value (fun _ => [true, false, true])
        (ColumnBool.mkColumn (fun _ => [true, false, true])
          ⟨"b", 0, 0, 0, ColumnDataType.fdtBool⟩ 0) 2).fst = Except.ok true
    ∧ (ColumnList.value (T := Nat) (fun _ => [7, 8, 9])
        (ColumnList.mkColumn mcAge 0) 2).fst = Except.ok 9
    ∧ (Column.value (T := Bool) (fun _ => [true, false, true])
        (Column.mkColumn mcAge 0) 1).fst
      = (ColumnBool.value (fun _ => [true, false, true])
          (ColumnBool.mkColumn (fun _ => [true, false, true])
            ⟨"b", 0, 0, 0, ColumnDataType.fdtBool⟩ 0) 1).fst := by
  obtain ⟨a, b, c, d⟩ := C1_value_returns_backing_element
    (fun _ => [10, 20, 30]) (Column.mkColumn mcAge 0) 1 (by decide)
    (fun _ => [true, false, true])
    (ColumnBool.mkColumn (fun _ => [true, false, true])
      ⟨"b", 0, 0, 0, ColumnDataType.fdtBool⟩ 0) 2 (by decide)
    (fun _ => [7, 8, 9]) (ColumnList.mkColumn mcAge 0) 2 (by decide) (by decide)
  exact ⟨a, b, c,
    (d (fun _ => [true, false, true]) (Column.mkColumn mcAge 0)
      (ColumnBool.mkColumn (fun _ => [true, false, true])
        ⟨"b", 0, 0, 0, ColumnDataType.fdtBool⟩ 0)
      (ColumnList.mkColumn ⟨"b", 0, 0, 0, ColumnDataType.fdtBool⟩ 0)
      [true, false, true] 1 rfl rfl rfl (by decide) (by decide)).1⟩

/-- C2: For every Column variant and every `row >= rowCount()`, `value(row)`
fails with the single out-of-range error kind — the column's `RangeException`,
never the backing container's native `std::out_of_range` — and `rowCount()` is
unchanged by the failing call.  (The list variant's `row < 2^64` hypothesis is
inherent: `row` is a `std::size_t` value.) -/
theorem C2_out_of_range_fails_with_range_exception {T : Type}
    (hg : Heap T) (cg : Column T) (rowg : Nat)
    (hgr : Column.rowCount hg cg ≤ rowg)
    (hb : Heap Bool) (cb : ColumnBool) (rowb : Nat)
    (hbr : ColumnBool.rowCount hb cb ≤ rowb)
    (hl : Heap T) (cl : ColumnList T) (rowl : Nat)
    (hrowl : rowl < SIZE_T_MOD)
    (hlr : ColumnList.rowCount hl cl ≤ rowl) :
    ((Column.value hg cg rowg).fst
        = Except.error (CxxError.rangeException outOfRangeMsg)
      ∧ Column.rowCount (Column.value hg cg rowg).snd.snd
          (Column.value hg cg rowg).snd.fst = Column.rowCount hg cg)
    ∧ ((ColumnBool.value hb cb rowb).fst
        = Except.error (CxxError.rangeException outOfRangeMsg)
      ∧ ColumnBool.rowCount (ColumnBool.value hb cb rowb).snd.snd
          (ColumnBool.value hb cb rowb).snd.fst = ColumnBool.rowCount hb cb)
    ∧ ((ColumnList.value hl cl rowl).fst
        = Except.error (CxxError.rangeException "Invalid row number.")
      ∧ ColumnList.rowCount (ColumnList.value hl cl rowl).snd.snd
          (ColumnList.value hl cl rowl).snd.fst = ColumnList.rowCount hl cl) := by
  refine ⟨⟨Column.value_out_of_range_generic hg cg rowg hgr, by rw [Column.value_keeps_state_generic]⟩,
    ⟨ColumnBool.value_out_of_range_bool hb cb rowb hbr, ?_⟩,
    ⟨ColumnList.value_out_of_range_list hl cl rowl hrowl hlr, by rw [ColumnList.value_keeps_state_list]⟩⟩
  unfold ColumnBool.rowCount
  rw [ColumnBool.value_heap, ColumnBool.value_pData]

/-- Witness for C2: out-of-range reads on concrete columns with 3, 2 and 2
rows, at rows 3, 5 and 100. -/
theorem C2_witness :
    ((Column.value (T := Nat) (fun _ => [10, 20, 30])
        (Column.mkColumn mcAge 0) 3).fst
      = Except.error (CxxError.rangeException outOfRangeMsg))
    ∧ ((ColumnBool.value (fun _ => [true, false])
        (ColumnBool.mkColumn (fun _ => [true, false])
          ⟨"b", 0, 0, 0, ColumnDataType.fdtBool⟩ 0) 5).fst
      = Except.error (CxxError.rangeException outOfRangeMsg))
    ∧ ((ColumnList.value (T := Nat) (fun _ => [7, 8])
        (ColumnList.mkColumn mcAge 0) 100).fst
      = Except.error (CxxError.rangeException "Invalid row number.")) := by
  obtain ⟨⟨a, -⟩, ⟨b, -⟩, ⟨c, -⟩⟩ := C2_out_of_range_fails_with_range_exception
    (fun _ => [10, 20, 30]) (Column.mkColumn mcAge 0) 3 (by decide)
    (fun _ => [true, false])
    (ColumnBool.mkColumn (fun _ => [true, false])
      ⟨"b", 0, 0, 0, ColumnDataType.fdtBool⟩ 0) 5 (by decide)
    (fun _ => [7, 8]) (ColumnList.mkColumn mcAge 0) 100 (by decide) (by decide)
  exact ⟨a, b, c⟩

/-- C3: For every Column variant, `rowCount()` equals the number of elements
in the backing store after every operation — construction, `value`, mutation
of the backing store through `data()`, and `reset` — and immediately after
`reset()` the `rowCount()` is 0. -/
theorem C3_rowCount_equals_backing_count {T : Type} (h : Heap T) (c : Column T)
    (hb : Heap Bool) (cb : ColumnBool) (hl : Heap T) (cl : ColumnList T)
    (m : MetaColumn) (a : Nat) (row : Nat) (v : List T) (vb : List Bool) :
    (Column.rowCount h c = (h c.pData).length
     ∧ Column.rowCount h (Column.mkColumn (T := T) m a) = (h a).length
     ∧ Column.rowCount (Column.value h c row).snd.snd
         (Column.value h c row).snd.fst = (h c.pData).length
     ∧ Column.rowCount (Column.writeData h c v) c = v.length
     ∧ Column.rowCount (Column.reset h c) c = 0)
    ∧ (ColumnBool.rowCount hb cb = (hb cb.pData).length
     ∧ ColumnBool.rowCount hb (ColumnBool.mkColumn hb m a) = (hb a).length
     ∧ ColumnBool.rowCount (ColumnBool.value hb cb row).snd.snd
         (ColumnBool.value hb cb row).snd.fst = (hb cb.pData).length
     ∧ ColumnBool.rowCount (ColumnBool.writeData hb cb vb) cb = vb.length
     ∧ ColumnBool.rowCount (ColumnBool.reset hb cb).snd
         (ColumnBool.reset hb cb).fst = 0)
    ∧ (ColumnList.rowCount hl cl = (hl cl.pData).length
     ∧ ColumnList.rowCount hl (ColumnList.mkColumn (T := T) m a)
         = (hl a).length
     ∧ ColumnList.rowCount (ColumnList.value hl cl row).snd.snd
         (ColumnList.value hl cl row).snd.fst = (hl cl.pData).length
     ∧ ColumnList.rowCount (ColumnList.writeData hl cl v) cl = v.length
     ∧ ColumnList.rowCount (ColumnList.reset hl cl) cl = 0) := by
  refine ⟨⟨rfl, rfl, by rw [Column.value_keeps_state_generic]; rfl, ?_, ?_⟩,
    ⟨rfl, rfl, ?_, ?_, ?_⟩,
    ⟨rfl, rfl, by rw [ColumnList.value_keeps_state_list]; rfl, ?_, ?_⟩⟩
  · unfold Column.rowCount Column.writeData
    rw [heapUpdate_same]
  · unfold Column.rowCount Column.reset
    rw [heapUpdate_same]
    rfl
  · unfold ColumnBool.rowCount
    rw [ColumnBool.value_heap, ColumnBool.value_pData]
  · unfold ColumnBool.rowCount ColumnBool.writeData
    rw [heapUpdate_same]
  · simp [ColumnBool.rowCount, ColumnBool.reset, heapUpdate]
  · unfold ColumnList.rowCount ColumnList.writeData
    rw [heapUpdate_same]
  · unfold ColumnList.rowCount ColumnList.reset
    rw [heapUpdate_same]
    rfl

theorem ColumnBool.runAccesses_state :
    ∀ (rs : List Nat) (h : Heap Bool) (c : ColumnBool),
      (ColumnBool.runAccesses h c rs).snd = h
      ∧ (ColumnBool.runAccesses h c rs).fst.pData = c.pData
  | [], _, _ => ⟨rfl, rfl⟩
  | r :: rs, h, c => by
    have h1 := ColumnBool.value_heap h c r
    have h2 := ColumnBool.value_pData h c r
    obtain ⟨ih1, ih2⟩ := ColumnBool.runAccesses_state rs
      (ColumnBool.value h c r).snd.snd (ColumnBool.value h c r).snd.fst
    constructor
    · show (ColumnBool.runAccesses (ColumnBool.value h c r).snd.snd
        (ColumnBool.value h c r).snd.fst rs).snd = h
      rw [ih1, h1]
    · show (ColumnBool.runAccesses (ColumnBool.value h c r).snd.snd
        (ColumnBool.value h c r).snd.fst rs).fst.pData = c.pData
      rw [ih2, h2]

/-- C4: Round-trip for the boolean-packed variant: constructing a Column from
a populated `vector<bool>` of N elements and then reading `value(i)` for every
`i < N` yields exactly the original boolean sequence, after any prior access
sequence `rs` in any order (which may grow the shadow deque between reads). -/
theorem C4_bool_round_trip (h : Heap Bool) (m : MetaColumn) (a : Nat)
    (bs : List Bool) (e : h a = bs) (rs : List Nat) (i : Nat)
    (hi : i < bs.length) :
    (ColumnBool.value
        (ColumnBool.runAccesses h (ColumnBool.mkColumn h m a) rs).snd
        (ColumnBool.runAccesses h (ColumnBool.mkColumn h m a) rs).fst i).fst
      = Except.ok (bs.get ⟨i, hi⟩) := by
  obtain ⟨e1, e2⟩ :=
    ColumnBool.runAccesses_state rs h (ColumnBool.mkColumn h m a)
  have hp : (ColumnBool.runAccesses h (ColumnBool.mkColumn h m a) rs).fst.pData
      = a := e2
  have econt : (ColumnBool.runAccesses h (ColumnBool.mkColumn h m a) rs).snd
      ((ColumnBool.runAccesses h (ColumnBool.mkColumn h m a) rs).fst.pData)
      = bs := by
    rw [e1, hp, e]
  have hi2 : i < ((ColumnBool.runAccesses h (ColumnBool.mkColumn h m a) rs).snd
      ((ColumnBool.runAccesses h (ColumnBool.mkColumn h m a) rs).fst.pData)).length := by
    rw [econt]
    exact hi
  rw [ColumnBool.value_in_range_bool _ _ i hi2]
  exact congrArg Except.ok (list_get_congr econt i hi2 hi)

/-- Witness for C4: backing `[true, false, true]`, prior accesses
`[2, 0, 5, 1]` (out of order, one out of range), then reading row 1. -/
theorem C4_witness :
    (ColumnBool.value
        (ColumnBool.runAccesses (fun _ => [true, false, true])
          (ColumnBool.mkColumn (fun _ => [true, false, true])
            ⟨"b", 0, 0, 0, ColumnDataType.fdtBool⟩ 0) [2, 0, 5, 1]).snd
        (ColumnBool.runAccesses (fun _ => [true, false, true])
          (ColumnBool.mkColumn (fun _ => [true, false, true])
            ⟨"b", 0, 0, 0, ColumnDataType.fdtBool⟩ 0) [2, 0, 5, 1]).fst 1).fst
      = Except.ok false :=
  C4_bool_round_trip (fun _ => [true, false, true])
    ⟨"b", 0, 0, 0, ColumnDataType.fdtBool⟩ 0 [true, false, true] rfl
    [2, 0, 5, 1] 1 (by decide)

/-- C5: In the list-backed variant, for every `row < size` the traversal taken
finds the element and the fallback `throw RangeException("Invalid row
number.")` is never reached; for every `row >= size` — including rows for
which `size - row` wraps in unsigned `std::size_t` arithmetic in the backward
branch — the traversal exhausts and the out-of-range error is raised,
constructed directly (the `rangeException` kind, never the container's native
`outOfRange` kind). -/
theorem C5_list_traversal_totality {T : Type} (h : Heap T) (c : ColumnList T)
    (row : Nat) (hrow : row < SIZE_T_MOD)
    (hlen : (h c.pData).length < SIZE_T_MOD) :
    (∀ hr : row < (h c.pData).length,
       (ColumnList.value h c row).fst
         = Except.ok ((h c.pData).get ⟨row, hr⟩))
    ∧ ((h c.pData).length ≤ row →
       (ColumnList.value h c row).fst
         = Except.error (CxxError.rangeException "Invalid row number.")) :=
  ⟨fun hr => ColumnList.value_in_range_list h c row hlen hr,
   fun hr => ColumnList.value_out_of_range_list h c row hrow hr⟩

/-- Witness for C5: list `[7, 8, 9]`; row 2 (backward branch) is found, and
row 7 (for which `3 - 7` wraps) raises the directly constructed error. -/
theorem C5_witness :
    (ColumnList.value (T := Nat) (fun _ => [7, 8, 9])
        (ColumnList.mkColumn mcAge 0) 2).fst = Except.ok 9
    ∧ (ColumnList.value (T := Nat) (fun _ => [7, 8, 9])
        (ColumnList.mkColumn mcAge 0) 7).fst
      = Except.error (CxxError.rangeException "Invalid row number.") :=
  ⟨(C5_list_traversal_totality (fun _ => [7, 8, 9])
      (ColumnList.mkColumn mcAge 0) 2 (by decide) (by decide)).1 (by decide),
   (C5_list_traversal_totality (fun _ => [7, 8, 9])
      (ColumnList.mkColumn mcAge 0) 7 (by decide) (by decide)).2 (by decide)⟩

/-- C6: Boolean-packed variant invariant: after any `value()` call, successful
or failing, the shadow deque's length is at least the backing vector's
length. -/
theorem C6_shadow_deque_covers_backing (h : Heap Bool) (c : ColumnBool)
    (row : Nat) :
    ((ColumnBool.value h c row).snd.snd
        ((ColumnBool.value h c row).snd.fst.pData)).length
      ≤ (ColumnBool.value h c row).snd.fst.deque.length := by
  rw [ColumnBool.value_heap, ColumnBool.value_pData]
  exact ColumnBool.value_deque_len h c row

/-- C7: An out-of-range `value(row)` call leaves the Column's state
unmodified — metadata, backing store and hence `rowCount()` are unchanged —
except that in the boolean variant the shadow deque may have grown (the
pre-call deque is a prefix of the post-call deque). -/
theorem C7_failing_value_frame {T : Type}
    (hg : Heap T) (cg : Column T) (rowg : Nat)
    (hgr : Column.rowCount hg cg ≤ rowg)
    (hb : Heap Bool) (cb : ColumnBool) (rowb : Nat)
    (hbr : ColumnBool.rowCount hb cb ≤ rowb)
    (hl : Heap T) (cl : ColumnList T) (rowl : Nat)
    (hlr : ColumnList.rowCount hl cl ≤ rowl) :
    ((Column.value hg cg rowg).snd = (cg, hg))
    ∧ ((ColumnBool.value hb cb rowb).snd.snd = hb
       ∧ (ColumnBool.value hb cb rowb).snd.fst.metaColumn = cb.metaColumn
       ∧ (ColumnBool.value hb cb rowb).snd.fst.pData = cb.pData
       ∧ ∃ ext, (ColumnBool.value hb cb rowb).snd.fst.deque = cb.deque ++ ext)
    ∧ ((ColumnList.value hl cl rowl).snd = (cl, hl)) := by
  refine ⟨Column.value_keeps_state_generic hg cg rowg,
    ⟨ColumnBool.value_heap hb cb rowb, ColumnBool.value_meta hb cb rowb,
     ColumnBool.value_pData hb cb rowb, ?_⟩,
    ColumnList.value_keeps_state_list hl cl rowl⟩
  rw [ColumnBool.value_deque_ge hb cb rowb hbr]
  exact syncDeque_eq_append cb.deque (hb cb.pData)

/-- Witness for C7: out-of-range reads at rows 9, 9 and 9 on concrete
two-element columns leave column and heap unchanged, and only grow the
boolean shadow deque by a suffix. -/
theorem C7_witness :
    ((Column.value (T := Nat) (fun _ => [1, 2])
        (Column.mkColumn mcAge 0) 9).snd
      = (Column.mkColumn mcAge 0, fun _ => [1, 2]))
    ∧ ((ColumnBool.value (fun _ => [true, false])
          (ColumnBool.mkColumn (fun _ => [true, false])
            ⟨"b", 0, 0, 0, ColumnDataType.fdtBool⟩ 0) 9).snd.fst.pData
        = (ColumnBool.mkColumn (fun _ => [true, false])
            ⟨"b", 0, 0, 0, ColumnDataType.fdtBool⟩ 0).pData
       ∧ ∃ ext, (ColumnBool.value (fun _ => [true, false])
          (ColumnBool.mkColumn (fun _ => [true, false])
            ⟨"b", 0, 0, 0, ColumnDataType.fdtBool⟩ 0) 9).snd.fst.deque
        = (ColumnBool.mkColumn (fun _ => [true, false])
            ⟨"b", 0, 0, 0, ColumnDataType.fdtBool⟩ 0).deque ++ ext)
    ∧ ((ColumnList.value (T := Nat) (fun _ => [1, 2])
        (ColumnList.mkColumn mcAge 0) 9).snd
      = (ColumnList.mkColumn mcAge 0, fun _ => [1, 2])) := by
  obtain ⟨a, ⟨-, -, b1, b2⟩, d⟩ := C7_failing_value_frame
    (fun _ => [1, 2]) (Column.mkColumn mcAge 0) 9 (by decide)
    (fun _ => [true, false])
    (ColumnBool.mkColumn (fun _ => [true, false])
      ⟨"b", 0, 0, 0, ColumnDataType.fdtBool⟩ 0) 9 (by decide)
    (fun _ => [1, 2]) (ColumnList.mkColumn mcAge 0) 9 (by decide)
  exact ⟨a, ⟨b1, b2⟩, d⟩

/-- C8: Copy-constructing or assigning a Column yields a Column whose
`value(row)` results equal the source's for every row at the moment of copy;
afterwards a mutation of the backing store performed through one copy's
`data()` accessor is observable through `value()` / `rowCount()` of the other
copy — the two columns share one backing store. -/
theorem C8_copy_shares_backing_store {T : Type} (h : Heap T) (c d : Column T)
    (row : Nat) (v : List T) (hv : row < v.length) :
    ((Column.value h (Column.copy c) row).fst = (Column.value h c row).fst)
    ∧ ((Column.value h (Column.assign d c) row).fst
        = (Column.value h c row).fst)
    ∧ (Column.rowCount (Column.writeData h (Column.copy c) v) c = v.length
       ∧ (Column.value (Column.writeData h (Column.copy c) v) c row).fst
           = Except.ok (v.get ⟨row, hv⟩))
    ∧ (Column.rowCount (Column.writeData h c v) (Column.copy c) = v.length
       ∧ (Column.value (Column.writeData h c v) (Column.copy c) row).fst
           = Except.ok (v.get ⟨row, hv⟩)) := by
  have ecpy : Column.writeData h (Column.copy c) v c.pData = v := by
    simp [Column.writeData, Column.copy, heapUpdate]
  have eorig : Column.writeData h c v (Column.copy c).pData = v := by
    simp [Column.writeData, Column.copy, heapUpdate]
  refine ⟨rfl, rfl, ⟨?_, ?_⟩, ⟨?_, ?_⟩⟩
  · unfold Column.rowCount
    rw [ecpy]
  · have hr : row < (Column.writeData h (Column.copy c) v c.pData).length := by
      rw [ecpy]; exact hv
    rw [Column.value_in_range_generic _ _ row hr]
    exact congrArg Except.ok (list_get_congr ecpy row hr hv)
  · unfold Column.rowCount
    rw [eorig]
  · have hr : row < (Column.writeData h c v (Column.copy c).pData).length := by
      rw [eorig]; exact hv
    rw [Column.value_in_range_generic _ _ row hr]
    exact congrArg Except.ok (list_get_congr eorig row hr hv)

/-- Witness for C8: column over `[1, 2]` at address 0; replacing the shared
store with `[5, 6, 7]` through the copy is seen by the original. -/
theorem C8_witness :
    ((Column.value (T := Nat) (fun _ => [1, 2])
        (Column.copy (Column.mkColumn mcAge 0)) 1).fst
      = (Column.value (T := Nat) (fun _ => [1, 2])
          (Column.mkColumn mcAge 0) 1).fst)
    ∧ (Column.rowCount
        (Column.writeData (T := Nat) (fun _ => [1, 2])
          (Column.copy (Column.mkColumn mcAge 0)) [5, 6, 7])
        (Column.mkColumn mcAge 0) = 3
       ∧ (Column.value
           (Column.writeData (T := Nat) (fun _ => [1, 2])
             (Column.copy (Column.mkColumn mcAge 0)) [5, 6, 7])
           (Column.mkColumn mcAge 0) 2).fst = Except.ok 7) := by
  obtain ⟨a, -, ⟨b1, b2⟩, -⟩ := C8_copy_shares_backing_store
    (fun _ => [1, 2]) (Column.mkColumn mcAge 0) (Column.mkColumn mcAge 1)
    2 [5, 6, 7] (by decide)
  refine ⟨rfl, b1, b2⟩

theorem listLookup_nil {T : Type} (row : Nat) :
    listLookup ([] : List T) row = none := by
  unfold listLookup
  split <;> rfl

theorem ColumnList.value_nil {T : Type} (h : Heap T) (c : ColumnList T)
    (row : Nat) (e : h c.pData = []) :
    (ColumnList.value h c row).fst
      = Except.error (CxxError.rangeException "Invalid row number.") := by
  unfold ColumnList.value
  rw [e, listLookup_nil]

/-- C9: `reset()` empties the shared backing container in place, so after two
Columns come to share one backing store by copy, calling `reset()` on either
one makes `rowCount()` of both equal 0 and makes `value(row)` fail for every
row on both. -/
theorem C9_reset_acts_on_shared_store {T : Type} (h : Heap T) (c : Column T)
    (hb : Heap Bool) (cb : ColumnBool) (hl : Heap T) (cl : ColumnList T)
    (row : Nat) :
    (Column.rowCount (Column.reset h (Column.copy c)) c = 0
     ∧ Column.rowCount (Column.reset h (Column.copy c)) (Column.copy c) = 0
     ∧ Column.rowCount (Column.reset h c) (Column.copy c) = 0
     ∧ (Column.value (Column.reset h (Column.copy c)) c row).fst
         = Except.error (CxxError.rangeException outOfRangeMsg)
     ∧ (Column.value (Column.reset h (Column.copy c)) (Column.copy c) row).fst
         = Except.error (CxxError.rangeException outOfRangeMsg))
    ∧ (ColumnBool.rowCount
         (ColumnBool.reset hb (ColumnBool.copy hb cb)).snd cb = 0
     ∧ ColumnBool.rowCount (ColumnBool.reset hb (ColumnBool.copy hb cb)).snd
         (ColumnBool.reset hb (ColumnBool.copy hb cb)).fst = 0
     ∧ (ColumnBool.value (ColumnBool.reset hb (ColumnBool.copy hb cb)).snd
         cb row).fst
         = Except.error (CxxError.rangeException outOfRangeMsg)
     ∧ (ColumnBool.value (ColumnBool.reset hb (ColumnBool.copy hb cb)).snd
         (ColumnBool.reset hb (ColumnBool.copy hb cb)).fst row).fst
         = Except.error (CxxError.rangeException outOfRangeMsg))
    ∧ (ColumnList.rowCount (ColumnList.reset hl (ColumnList.copy cl)) cl = 0
     ∧ ColumnList.rowCount (ColumnList.reset hl (ColumnList.copy cl))
         (ColumnList.copy cl) = 0
     ∧ (ColumnList.value (ColumnList.reset hl (ColumnList.copy cl)) cl
         row).fst
         = Except.error (CxxError.rangeException "Invalid row number.")
     ∧ (ColumnList.value (ColumnList.reset hl (ColumnList.copy cl))
         (ColumnList.copy cl) row).fst
         = Except.error (CxxError.rangeException "Invalid row number.")) := by
  refine ⟨⟨?_, ?_, ?_, ?_, ?_⟩, ⟨?_, ?_, ?_, ?_⟩, ⟨?_, ?_, ?_, ?_⟩⟩
  · simp [Column.rowCount, Column.reset, Column.copy, heapUpdate]
  · simp [Column.rowCount, Column.reset, Column.copy, heapUpdate]
  · simp [Column.rowCount, Column.reset, Column.copy, heapUpdate]
  · apply Column.value_out_of_range_generic
    simp [Column.reset, Column.copy, heapUpdate]
  · apply Column.value_out_of_range_generic
    simp [Column.reset, Column.copy, heapUpdate]
  · simp [ColumnBool.rowCount, ColumnBool.reset, ColumnBool.copy, heapUpdate]
  · simp [ColumnBool.rowCount, ColumnBool.reset, ColumnBool.copy, heapUpdate]
  · apply ColumnBool.value_out_of_range_bool
    simp [ColumnBool.reset, ColumnBool.copy, heapUpdate]
  · apply ColumnBool.value_out_of_range_bool
    simp [ColumnBool.reset, ColumnBool.copy, heapUpdate]
  · simp [ColumnList.rowCount, ColumnList.reset, ColumnList.copy, heapUpdate]
  · simp [ColumnList.rowCount, ColumnList.reset, ColumnList.copy, heapUpdate]
  · apply ColumnList.value_nil
    simp [ColumnList.reset, ColumnList.copy, heapUpdate]
  · apply ColumnList.value_nil
    simp [ColumnList.reset, ColumnList.copy, heapUpdate]

/-- C10: For every Column variant and every row, `operator[](row)` is
extensionally equal to `value(row)`: the same result when it succeeds, the
same error and the same post-state when it fails. -/
theorem C10_bracket_equals_value {T : Type} (h : Heap T) (c : Column T)
    (hb : Heap Bool) (cb : ColumnBool) (hl : Heap T) (cl : ColumnList T)
    (row : Nat) :
    Column.index h c row = Column.value h c row
    ∧ ColumnBool.index hb cb row = ColumnBool.value hb cb row
    ∧ ColumnList.index hl cl row = ColumnList.value hl cl row :=
  ⟨rfl, rfl, rfl⟩

end PocoData
